import Mathlib

/-!
Verification development for the MySpotifyWrapped repository.

The development shallowly embeds `src/spotify_wrapped/models.py`:

* JSON values (the payloads Spotify returns, after `json.loads`) become the
  inductive `JVal`; Python's dynamic operations on them (`d[k]`, `len`,
  `int(...)`, `str(...)`, iteration, `x[0]`, `==` against a string literal,
  dict-key equality, `max(dict, key=dict.get)`) become explicit functions
  returning `Except PyErr _`, with `PyErr` standing for the Python exception
  the operation raises.
* `SingleWrapped.parse` / `SingleWrapped.create` and the module-level helpers
  `_add_artists`, `_conclude_artist_popularity`, `_add_tracks`,
  `_conclude_track_popularity` are translated statement by statement, in the
  source's evaluation order (an underscore prefix is dropped from the names).
  Python's float division `total / len` is modelled by exact division in `ℚ`.
* `Account.access_expired` and `Account.refresh` are embedded with time as an
  integer and the single upstream HTTP exchange of `refresh` as an explicit
  `UpstreamOutcome` argument.
* A typed layer (`Artist`, `Track` with their JSON encodings) captures the
  spec's data model (section 3) and lets theorems quantify over well-formed
  payloads.
-/

/-- A JSON value as produced by `json.loads`: null, booleans, integers,
strings, arrays and string-keyed objects. (The payloads the repository
consumes contain no floats, so number means integer here.) -/
inductive JVal where
  | null
  | jb (b : Bool)
  | ji (n : Int)
  | js (s : String)
  | ja (xs : List JVal)
  | jo (fs : List (String × JVal))

/-- The Python exceptions the embedded code can raise. -/
inductive PyErr where
  | typeError
  | keyError
  | indexError
  | valueError
  | zeroDivisionError
  | requestException
  | timeoutError
deriving DecidableEq, Repr

/-- Lookup in a Python dict (association list, insertion order kept). -/
def pyLookup : List (String × JVal) → String → Option JVal
  | [], _ => none
  | (k', v) :: fs, k => if k' = k then some v else pyLookup fs k

/-- Python `v[k]` for a string key `k`: a dict yields the entry or raises
`KeyError`; subscripting a list, string, number, bool or None with a string
key raises `TypeError`. -/
def pySubscr (v : JVal) (k : String) : Except PyErr JVal :=
  match v with
  | .jo fs =>
    match pyLookup fs k with
    | some w => .ok w
    | none => .error .keyError
  | _ => .error .typeError

/-- Python `len(v)`: defined on lists, strings and dicts, `TypeError`
otherwise. -/
def pyLen (v : JVal) : Except PyErr Nat :=
  match v with
  | .ja xs => .ok xs.length
  | .js s => .ok s.length
  | .jo fs => .ok fs.length
  | _ => .error .typeError

/-- Python `v[0]`: first element of a list (`IndexError` when empty), first
character of a string, `KeyError` for a dict (our objects have only string
keys, so the integer key 0 is never present), `TypeError` otherwise. -/
def pyIndexZero (v : JVal) : Except PyErr JVal :=
  match v with
  | .ja (x :: _) => .ok x
  | .ja [] => .error .indexError
  | .js s => if s.isEmpty then .error .indexError else .ok (.js (String.singleton s.front))
  | .jo _ => .error .keyError
  | _ => .error .typeError

/-- Python `int(v)`: identity on ints, 1/0 on bools, numeric-string parsing
(whitespace stripped, optional sign) with `ValueError` on failure,
`TypeError` on None, lists and dicts. (Python's underscore digit separators
are not modelled; no theorem evaluates the string branch.) -/
def pyInt (v : JVal) : Except PyErr Int :=
  match v with
  | .ji n => .ok n
  | .jb b => .ok (if b then 1 else 0)
  | .js s =>
    match (if s.trim.startsWith "+" then s.trim.drop 1 else s.trim).toInt? with
    | some n => .ok n
    | none => .error .valueError
  | _ => .error .typeError

/-- Python iteration `for x in v`: list elements, string characters, dict
keys; `TypeError` otherwise. -/
def pyIter (v : JVal) : Except PyErr (List JVal) :=
  match v with
  | .ja xs => .ok xs
  | .js s => .ok (s.toList.map (fun c => JVal.js (String.singleton c)))
  | .jo fs => .ok (fs.map (fun p => JVal.js p.1))
  | _ => .error .typeError

mutual

/-- Python `repr(v)` for a JSON value (strings single-quoted; nested
escaping is not modelled; no theorem evaluates the container branches). -/
def pyRepr : JVal → String
  | .null => "None"
  | .jb true => "True"
  | .jb false => "False"
  | .ji n => toString n
  | .js s => "'" ++ s ++ "'"
  | .ja xs => "[" ++ pyReprList xs ++ "]"
  | .jo fs => "\x7b" ++ pyReprObj fs ++ "\x7d"

/-- Comma-separated reprs of a list's elements. -/
def pyReprList : List JVal → String
  | [] => ""
  | [x] => pyRepr x
  | x :: xs => pyRepr x ++ ", " ++ pyReprList xs

/-- Comma-separated reprs of a dict's entries. -/
def pyReprObj : List (String × JVal) → String
  | [] => ""
  | [(k, v)] => "'" ++ k ++ "': " ++ pyRepr v
  | (k, v) :: fs => "'" ++ k ++ "': " ++ pyRepr v ++ ", " ++ pyReprObj fs

end

/-- Python `str(v)`: the string itself for a string, `repr` otherwise. -/
def pyStr (v : JVal) : String :=
  match v with
  | .js s => s
  | _ => pyRepr v

/-- Python `v == lit` for a string literal `lit`: true exactly when `v` is an
equal string; comparison against any other type is simply `False` (never an
error). Models line 230, `track["explicit"] == "true"`. -/
def pyEqLitStr (v : JVal) (lit : String) : Bool :=
  match v with
  | .js t => decide (t = lit)
  | _ => false

/-- Equality of Python dict keys (`==` on hashable values): `None`, bools,
ints and strings, with Python's `True == 1` / `False == 0` identification.
Lists and dicts are unhashable and never become keys. -/
def pyKeyEq : JVal → JVal → Bool
  | .null, .null => true
  | .jb a, .jb b => decide (a = b)
  | .jb a, .ji n => decide ((if a then (1 : Int) else 0) = n)
  | .ji n, .jb a => decide (n = (if a then (1 : Int) else 0))
  | .ji m, .ji n => decide (m = n)
  | .js s, .js t => decide (s = t)
  | _, _ => false

/-- Whether a value may be used as a dict key (`in` / assignment): lists and
dicts raise `TypeError: unhashable type`. -/
def pyHashable : JVal → Bool
  | .ja _ => false
  | .jo _ => false
  | _ => true

/-- Lines 193–196: `genre_counts[genre] += 1` when present,
`genre_counts[genre] = 1` otherwise. The dict is an insertion-ordered
association list; an update keeps the original key and its position, an
insertion appends. -/
def gcBump (gc : List (JVal × Int)) (k : JVal) : List (JVal × Int) :=
  if gc.any (fun p => pyKeyEq p.1 k) then
    gc.map (fun p => if pyKeyEq p.1 k then (p.1, p.2 + 1) else p)
  else gc ++ [(k, 1)]

/-- The fold Python's `max(iterable, key=f)` performs: keep the current best
unless a later element is strictly greater, so on ties the earliest element
wins. -/
def maxFirst {α : Type} (e : α × Int) : List (α × Int) → α × Int
  | [] => e
  | p :: r => maxFirst (if p.2 > e.2 then p else e) r

/-- Line 197: `max(genre_counts, key=genre_counts.get)` — iterates the keys
in insertion order, compares by count, raises `ValueError` on an empty
dict. -/
def pyMaxByGet (gc : List (JVal × Int)) : Except PyErr JVal :=
  match gc with
  | [] => .error .valueError
  | e :: r => .ok (maxFirst e r).1

/-- Lines 206–216, `_conclude_artist_popularity`: bucket the average artist
popularity, thresholds inclusive, evaluated top-down. -/
def conclude_artist_popularity (avg : ℚ) : String :=
  if avg ≥ 80 then "Everyone's on the same page about your favorite artists!"
  else if avg ≥ 60 then "Your favorite artists are interesting, but not controversial."
  else if avg ≥ 40 then "You have a niche taste in artists!"
  else if avg ≥ 20 then "You tend to enjoy the smaller creators!"
  else "Your taste in artists is quite unique!"

/-- Lines 250–258, `_conclude_track_popularity`. -/
def conclude_track_popularity (avg : ℚ) : String :=
  if avg ≥ 67 then "Most people would totally vibe with your playlist!"
  else if avg ≥ 33 then "People may not have heard of the songs you like."
    ++ " All the more reason to share them!"
  else "You'll be able to impress people with your knowledge"
    ++ " of less popular songs!"

/-- Lines 192–196: the inner `for genre in genres` loop over one artist's
genre list, threading the tally dict. An unhashable genre raises
`TypeError` at the membership test. -/
def genre_loop : List JVal → List (JVal × Int) → Except PyErr (List (JVal × Int))
  | [], gc => .ok gc
  | g :: rest, gc =>
    if pyHashable g then genre_loop rest (gcBump gc g) else .error .typeError

/-- Lines 185–196: the `for artist in top_artists` loop, threading the
popularity total, the image list and the genre tally, in the source's
statement order (popularity, genres lookup, image handling, genre loop). -/
def artist_loop : List JVal → Int → List JVal → List (JVal × Int) →
    Except PyErr (Int × List JVal × List (JVal × Int))
  | [], pop, imgs, gc => .ok (pop, imgs, gc)
  | a :: rest, pop, imgs, gc => do
    let pv ← pySubscr a "popularity"
    let pn ← pyInt pv
    let genres ← pySubscr a "genres"
    let images ← pySubscr a "images"
    let ilen ← pyLen images
    let imgs' ←
      if ilen > 0 then do
        let i0 ← pyIndexZero images
        pure (imgs ++ [i0])
      else pure (imgs ++ [JVal.null])
    let gs ← pyIter genres
    let gc' ← genre_loop gs gc
    artist_loop rest (pop + pn) imgs' gc'

/-- Lines 179–204, `_add_artists`: returns the four slides it appends and
the artist image list. Note line 197 runs `max` on the tally before the
`favorite_genre is None` test, so an empty tally raises `ValueError`; and
concatenating a non-string favorite genre at line 202 raises `TypeError`.
The division at line 203 reuses `len(top_artists)`. -/
def add_artists (top_artists : JVal) : Except PyErr (List String × List JVal) := do
  let first ← pyIndexZero top_artists
  let namev ← pySubscr first "name"
  let s1 := "Your number one artist was " ++ pyStr namev ++ "!"
  let fol ← pySubscr first "followers"
  let tot ← pySubscr fol "total"
  let s2 := "That makes you one of " ++ pyStr tot ++ " fans!"
  let items ← pyIter top_artists
  let (pop, imgs, gc) ← artist_loop items 0 [] []
  let favv ← pyMaxByGet gc
  let s3 ←
    match favv with
    | .null => Except.ok "Your favorite artists are so niche, we don't know what genre they are!"
    | .js g => Except.ok ("Your most played genre was " ++ g ++ "!")
    | _ => Except.error PyErr.typeError
  let n ← pyLen top_artists
  if n = 0 then Except.error PyErr.zeroDivisionError
  else
    let avg : ℚ := (pop : ℚ) / (n : ℚ)
    Except.ok ([s1, s2, s3, conclude_artist_popularity avg], imgs)

/-- Lines 223–231: the `for track in top_tracks` loop, threading popularity
and duration totals, the explicit counter and the album image list, in the
source's statement order. Line 230 compares `track["explicit"]` against
the string literal `"true"`. -/
def track_loop : List JVal → Int → Int → Int → List JVal →
    Except PyErr (Int × Int × Int × List JVal)
  | [], pop, dur, expl, imgs => .ok (pop, dur, expl, imgs)
  | t :: rest, pop, dur, expl, imgs => do
    let pv ← pySubscr t "popularity"
    let pn ← pyInt pv
    let dv ← pySubscr t "duration_ms"
    let dn ← pyInt dv
    let album ← pySubscr t "album"
    let images ← pySubscr album "images"
    let ilen ← pyLen images
    let imgs' ←
      if ilen > 0 then do
        let i0 ← pyIndexZero images
        pure (imgs ++ [i0])
      else pure (imgs ++ [JVal.null])
    let ev ← pySubscr t "explicit"
    let expl' := if pyEqLitStr ev "true" then expl + 1 else expl
    track_loop rest (pop + pn) (dur + dn) expl' imgs'

/-- Lines 218–248, `_add_tracks`: returns the four slides it appends and the
track image list. The averages at lines 232–233 divide by
`len(top_tracks)` (`ZeroDivisionError` when 0, though line 219 indexes
first). -/
def add_tracks (top_tracks : JVal) : Except PyErr (List String × List JVal) := do
  let first ← pyIndexZero top_tracks
  let namev ← pySubscr first "name"
  let s5 := "Your number one song was " ++ pyStr namev ++ "!"
  let items ← pyIter top_tracks
  let (pop, dur, expl, imgs) ← track_loop items 0 0 0 []
  let n ← pyLen top_tracks
  if n = 0 then Except.error PyErr.zeroDivisionError
  else
    let avg_length : ℚ := (dur : ℚ) / (n : ℚ)
    let avg_popularity : ℚ := (pop : ℚ) / (n : ℚ)
    let s6 :=
      if avg_length ≤ 60000 then "You tend to like shorter songs."
      else if avg_length ≤ 240000 then "You tend to like mid-length songs."
      else "You tend to like longer songs."
    let s7 :=
      if expl = 0 then "None of your top 5 songs were explicit 😇"
      else if expl ≤ 3 then toString expl ++ " of your top 5 songs were explicit."
      else "Oh my! " ++ toString expl ++ " of your top 5 songs were explicit."
    Except.ok ([s5, s6, s7, conclude_track_popularity avg_popularity], imgs)

/-- The parts of a parsed `SingleWrapped` the synthesis computes: the slide
list and the two image-metadata lists (a `JVal.null` entry marks an item
with no image, as Python appends `None`). -/
structure PWrapped where
  slides : List String
  artist_images : List JVal
  track_images : List JVal

/-- Lines 91–118, `SingleWrapped.parse`, applied to the already-decoded
payloads: take `artist_dict["items"]`; on an empty item list return the
single degenerate slide without touching the track payload; otherwise run
`_add_artists`, only then decode the track payload and run `_add_tracks`. -/
def SingleWrapped.parse (artist_json track_json : JVal) : Except PyErr PWrapped := do
  let top_artists ← pySubscr artist_json "items"
  let n ← pyLen top_artists
  if n = 0 then
    Except.ok ⟨["You didn't listen to any music recently."], [], []⟩
  else do
    let ar ← add_artists top_artists
    let top_tracks ← pySubscr track_json "items"
    let tr ← add_tracks top_tracks
    Except.ok ⟨ar.1 ++ tr.1, ar.2, tr.2⟩

/-- Lines 120–132, `SingleWrapped.create`: parse, then save. The store is a
list of persisted records; an exception from `parse` propagates before
`wrapped.save()` runs, so on failure the store is returned unchanged
together with the error. -/
def SingleWrapped.create (db : List PWrapped) (artist_json track_json : JVal) :
    List PWrapped × Option PyErr :=
  match SingleWrapped.parse artist_json track_json with
  | .error e => (db, some e)
  | .ok w => (db ++ [w], none)

/-- Whether a decoded payload is an object carrying key `k`. -/
def hasKey (v : JVal) (k : String) : Bool :=
  match v with
  | .jo fs => (pyLookup fs k).isSome
  | _ => false

/-- The fields of `Account` (lines 16–25) the token logic reads: the stored
access token (whatever value the upstream response carried), its expiration
instant (time is an integer; `None` until first set) and the refresh
token. -/
structure Account where
  access_token : Option JVal
  access_token_expiration_time : Option Int
  refresh_token : Option String

/-- Lines 43–47, `Account.access_expired`:
`timezone.now() > self.access_token_expiration_time` — strict comparison;
comparing against a `None` expiration raises `TypeError`. -/
def Account.access_expired (acct : Account) (now : Int) : Except PyErr Bool :=
  match acct.access_token_expiration_time with
  | none => .error .typeError
  | some e => .ok (decide (now > e))

/-- The one upstream exchange `Account.refresh` performs, made explicit: the
POST raised (connection error), it exceeded the fixed 5-second timeout, the
body was not JSON, or it decoded to `body`. -/
inductive UpstreamOutcome where
  | requestFailure
  | timeout
  | badBody
  | response (body : JVal)

/-- `timedelta(seconds=v)`: accepts ints (and bools, as Python ints);
anything else raises `TypeError`. -/
def timedelta_seconds (v : JVal) : Except PyErr Int :=
  match v with
  | .ji n => .ok n
  | .jb b => .ok (if b then 1 else 0)
  | _ => .error .typeError

/-- Lines 58–78, `Account.refresh`: a single POST (no retry — the outcome
argument is consulted once); on a decoded body, `response_json['access_token']`
is looked up and assigned first, then the expiration is computed from
`response_json['expires_in']`, so a body with a token but no `expires_in`
leaves the account partially updated. Returns the (possibly mutated)
account and the exception that propagated, if any. -/
def Account.refresh (acct : Account) (now : Int) (o : UpstreamOutcome) :
    Account × Option PyErr :=
  match o with
  | .requestFailure => (acct, some .requestException)
  | .timeout => (acct, some .timeoutError)
  | .badBody => (acct, some .valueError)
  | .response body =>
    match pySubscr body "access_token" with
    | .error e => (acct, some e)
    | .ok tok =>
      match pySubscr body "expires_in" with
      | .error e => ({ acct with access_token := some tok }, some e)
      | .ok ev =>
        match timedelta_seconds ev with
        | .error e => ({ acct with access_token := some tok }, some e)
        | .ok secs =>
          ({ acct with
              access_token := some tok,
              access_token_expiration_time := some (now + secs) }, none)

/-- An artist record of the spec's data model (section 3): name, popularity,
follower count, genre labels, image descriptors (kept as raw JSON
values — the synthesis treats them opaquely). -/
structure Artist where
  name : String
  followers : Int
  popularity : Int
  genres : List String
  images : List JVal

/-- A track record of the spec's data model (section 3). The explicit flag
is a JSON boolean, as the upstream API sends it. -/
structure Track where
  name : String
  popularity : Int
  duration_ms : Int
  explicit : Bool
  album_images : List JVal

/-- The JSON object the upstream API sends for an artist (the fields the
parser reads). -/
def Artist.toJ (a : Artist) : JVal :=
  .jo [("name", .js a.name),
       ("followers", .jo [("total", .ji a.followers)]),
       ("popularity", .ji a.popularity),
       ("genres", .ja (a.genres.map JVal.js)),
       ("images", .ja a.images)]

/-- The JSON object the upstream API sends for a track (the fields the
parser reads). -/
def Track.toJ (t : Track) : JVal :=
  .jo [("name", .js t.name),
       ("popularity", .ji t.popularity),
       ("duration_ms", .ji t.duration_ms),
       ("explicit", .jb t.explicit),
       ("album", .jo [("images", .ja t.album_images)])]

/-- A well-formed top-artists payload: `{"items": [...]}`. -/
def artistsPayload (as : List Artist) : JVal :=
  .jo [("items", .ja (as.map Artist.toJ))]

/-- A well-formed top-tracks payload: `{"items": [...]}`. -/
def tracksPayload (ts : List Track) : JVal :=
  .jo [("items", .ja (ts.map Track.toJ))]

/-- Sum of the artists' popularity values. -/
def sumPop : List Artist → Int
  | [] => 0
  | a :: as => a.popularity + sumPop as

/-- All genre labels in traversal order: artists in input order, each
artist's genre list in order. -/
def allGenres : List Artist → List String
  | [] => []
  | a :: as => a.genres ++ allGenres as

/-- Sum of the tracks' popularity values. -/
def sumTPop : List Track → Int
  | [] => 0
  | t :: ts => t.popularity + sumTPop ts

/-- Sum of the tracks' durations in milliseconds. -/
def sumDur : List Track → Int
  | [] => 0
  | t :: ts => t.duration_ms + sumDur ts

/-- The genre the claims describe: traversing the genre labels in order, the
first one whose tally count is maximal — on ties the first-seen label
wins. -/
def firstMaxGenre (gs : List String) : Option String :=
  gs.find? (fun g => gs.all (fun h => decide (gs.count h ≤ gs.count g)))

/-- String-keyed mirror of `gcBump`, for payloads whose genres are all
strings. -/
def bumpS (c : List (String × Int)) (g : String) : List (String × Int) :=
  if c.any (fun p => decide (p.1 = g)) then
    c.map (fun p => if p.1 = g then (p.1, p.2 + 1) else p)
  else c ++ [(g, 1)]

/-- The final genre tally a list of (string) genre labels produces. -/
def tallyS (gs : List String) : List (String × Int) :=
  gs.foldl bumpS []

/-- First occurrences of the labels in order, skipping ones already in
`seen`: the key order of a Python dict filled by the tally loop. -/
def dedupF : List String → List String → List String
  | _, [] => []
  | seen, g :: r => if g ∈ seen then dedupF seen r else g :: dedupF (g :: seen) r

/-- Inject a string-keyed tally entry into the dynamic one. -/
def encPair (p : String × Int) : JVal × Int :=
  (JVal.js p.1, p.2)

/-- Inject a string-keyed tally into the dynamic one. -/
def encL (c : List (String × Int)) : List (JVal × Int) :=
  c.map encPair

/-- A label paired with its tally count in `gs`. -/
def cntPair (gs : List String) (k : String) : String × Int :=
  (k, (gs.count k : Int))

/-! ## Lemmas: first-occurrence key order and `find?` -/

lemma dedupF_mem : ∀ (seen gs : List String) (x : String),
    x ∈ dedupF seen gs ↔ (x ∈ gs ∧ x ∉ seen)
  | _, [], x => by simp [dedupF]
  | seen, g :: r, x => by
    by_cases hg : g ∈ seen
    · rw [dedupF, if_pos hg, dedupF_mem seen r x]
      simp only [List.mem_cons]
      constructor
      · exact fun h => ⟨Or.inr h.1, h.2⟩
      · rintro ⟨rfl | hr, hs⟩
        · exact absurd hg hs
        · exact ⟨hr, hs⟩
    · rw [dedupF, if_neg hg]
      simp only [List.mem_cons, dedupF_mem (g :: seen) r x]
      constructor
      · rintro (rfl | ⟨hr, hs⟩)
        · exact ⟨Or.inl rfl, hg⟩
        · exact ⟨Or.inr hr, fun hx => hs (by simp [List.mem_cons, hx])⟩
      · rintro ⟨rfl | hr, hs⟩
        · exact Or.inl rfl
        · by_cases hxg : x = g
          · exact Or.inl hxg
          · exact Or.inr ⟨hr, by simp [List.mem_cons, hxg, hs]⟩

lemma dedupF_append_single (g : String) : ∀ (seen gs : List String),
    dedupF seen (gs ++ [g]) =
      if g ∈ seen ∨ g ∈ gs then dedupF seen gs else dedupF seen gs ++ [g]
  | seen, [] => by
    by_cases hg : g ∈ seen <;> simp [dedupF, hg]
  | seen, a :: r => by
    by_cases ha : a ∈ seen
    · rw [List.cons_append, dedupF, if_pos ha, dedupF_append_single g seen r,
        dedupF, if_pos ha]
      have hiff : (g ∈ seen ∨ g ∈ r) ↔ (g ∈ seen ∨ g ∈ a :: r) := by
        simp only [List.mem_cons]
        constructor
        · rintro (h | h)
          · exact Or.inl h
          · exact Or.inr (Or.inr h)
        · rintro (h | rfl | h)
          · exact Or.inl h
          · exact Or.inl ha
          · exact Or.inr h
      by_cases hc : g ∈ seen ∨ g ∈ r
      · rw [if_pos hc, if_pos (hiff.mp hc)]
      · rw [if_neg hc, if_neg (fun h => hc (hiff.mpr h))]
    · rw [List.cons_append, dedupF, if_neg ha, dedupF_append_single g (a :: seen) r,
        dedupF, if_neg ha]
      have hiff : (g ∈ a :: seen ∨ g ∈ r) ↔ (g ∈ seen ∨ g ∈ a :: r) := by
        simp only [List.mem_cons]
        constructor
        · rintro ((rfl | h) | h)
          · exact Or.inr (Or.inl rfl)
          · exact Or.inl h
          · exact Or.inr (Or.inr h)
        · rintro (h | (rfl | h))
          · exact Or.inl (Or.inr h)
          · exact Or.inl (Or.inl rfl)
          · exact Or.inr h
      by_cases hc : g ∈ a :: seen ∨ g ∈ r
      · rw [if_pos hc, if_pos (hiff.mp hc)]
      · rw [if_neg hc, if_neg (fun h => hc (hiff.mpr h)), List.cons_append]

lemma dedupF_find (p : String → Bool) : ∀ (seen gs : List String),
    (∀ x ∈ seen, p x = false) → (dedupF seen gs).find? p = gs.find? p
  | _, [], _ => by simp [dedupF]
  | seen, g :: r, h => by
    by_cases hg : g ∈ seen
    · rw [dedupF, if_pos hg, dedupF_find p seen r h]
      simp [List.find?, h g hg]
    · rw [dedupF, if_neg hg]
      cases hpg : p g with
      | true => simp [List.find?, hpg]
      | false =>
        simp only [List.find?, hpg]
        exact dedupF_find p (g :: seen) r (by
          intro x hx
          rcases List.mem_cons.mp hx with rfl | hx'
          · exact hpg
          · exact h x hx')

lemma sw_find_congr {α : Type} (p q : α → Bool) : ∀ (l : List α),
    (∀ x ∈ l, p x = q x) → l.find? p = l.find? q
  | [], _ => rfl
  | a :: r, h => by
    have ha := h a (List.mem_cons_self a r)
    cases hq : q a with
    | true => simp [List.find?, ha, hq]
    | false =>
      simp only [List.find?, ha, hq]
      exact sw_find_congr p q r (fun x hx => h x (List.mem_cons_of_mem a hx))

lemma sw_find_map {α β : Type} (f : α → β) (p : β → Bool) : ∀ (l : List α),
    (l.map f).find? p = (l.find? (fun a => p (f a))).map f
  | [] => rfl
  | a :: r => by
    cases hp : p (f a) with
    | true => simp [List.find?, hp]
    | false => simp [List.find?, hp, sw_find_map f p r]

/-! ## Lemmas: the genre tally and Python's first-wins `max` -/

lemma tallyS_eq (gs : List String) :
    tallyS gs = (dedupF [] gs).map (fun k => (k, (gs.count k : Int))) := by
  induction gs using List.reverseRecOn with
  | nil => rfl
  | append_singleton l a ih =>
    rw [tallyS, List.foldl_append, List.foldl_cons, List.foldl_nil, ← tallyS, ih,
      dedupF_append_single]
    simp only [List.not_mem_nil, false_or]
    by_cases ha : a ∈ l
    · rw [if_pos ha]
      have hmem : a ∈ dedupF [] l := (dedupF_mem [] l a).mpr ⟨ha, List.not_mem_nil a⟩
      have hany : ((dedupF [] l).map (fun k => (k, (l.count k : Int)))).any
          (fun p => decide (p.1 = a)) = true := by
        rw [List.any_eq_true]
        exact ⟨(a, (l.count a : Int)), List.mem_map_of_mem _ hmem, by simp⟩
      rw [bumpS, if_pos hany, List.map_map]
      refine List.map_congr_left (fun k _ => ?_)
      by_cases hk : k = a
      · subst hk
        simp [List.count_append, List.count_cons, List.count_nil]
      · simp [hk, List.count_append, List.count_cons, List.count_nil]
    · rw [if_neg ha]
      have hnone : ¬ a ∈ dedupF [] l := fun h => ha ((dedupF_mem [] l a).mp h).1
      have hany : ¬ (((dedupF [] l).map (fun k => (k, (l.count k : Int)))).any
          (fun p => decide (p.1 = a)) = true) := by
        rw [List.any_eq_true]
        rintro ⟨p, hp, hpa⟩
        obtain ⟨k, hk, rfl⟩ := List.mem_map.mp hp
        simp only [decide_eq_true_eq] at hpa
        exact hnone (hpa ▸ hk)
      rw [bumpS, if_neg hany, List.map_append]
      congr 1
      · refine List.map_congr_left (fun k hk => ?_)
        have hkl : k ∈ l := ((dedupF_mem [] l k).mp hk).1
        have hka : ¬ (k = a) := fun h => ha (h ▸ hkl)
        simp [List.count_append, List.count_cons, List.count_nil, hka]
      · have hca : l.count a = 0 := by
          rw [List.count_eq_zero]
          exact ha
        simp [List.count_append, List.count_cons, List.count_nil, hca]

lemma maxFirst_le {α : Type} : ∀ (l : List (α × Int)) (e q : α × Int),
    q ∈ e :: l → q.2 ≤ (maxFirst e l).2
  | [], e, q, hq => by
    rw [maxFirst]
    rcases List.mem_cons.mp hq with rfl | h
    · exact le_refl _
    · exact absurd h (List.not_mem_nil q)
  | p :: r, e, q, hq => by
    rw [maxFirst]
    have h1 : e.2 ≤ (if p.2 > e.2 then p else e).2 := by
      by_cases h : p.2 > e.2
      · rw [if_pos h]
        omega
      · rw [if_neg h]
    have h2 : p.2 ≤ (if p.2 > e.2 then p else e).2 := by
      by_cases h : p.2 > e.2
      · rw [if_pos h]
      · rw [if_neg h]
        omega
    have h3 := maxFirst_le r (if p.2 > e.2 then p else e) (if p.2 > e.2 then p else e)
      (List.mem_cons_self _ _)
    rcases List.mem_cons.mp hq with rfl | hq'
    · omega
    · rcases List.mem_cons.mp hq' with rfl | hq''
      · omega
      · exact maxFirst_le r _ q (List.mem_cons_of_mem _ hq'')

lemma maxFirst_mem {α : Type} : ∀ (l : List (α × Int)) (e : α × Int),
    maxFirst e l ∈ e :: l
  | [], e => by rw [maxFirst]; exact List.mem_cons_self _ _
  | p :: r, e => by
    rw [maxFirst]
    have h := maxFirst_mem r (if p.2 > e.2 then p else e)
    rcases List.mem_cons.mp h with heq | hmem
    · rw [heq]
      by_cases hc : p.2 > e.2
      · rw [if_pos hc]
        exact List.mem_cons_of_mem _ (List.mem_cons_self _ _)
      · rw [if_neg hc]
        exact List.mem_cons_self _ _
    · exact List.mem_cons_of_mem _ (List.mem_cons_of_mem _ hmem)

lemma maxFirst_find {α : Type} : ∀ (l : List (α × Int)) (e : α × Int),
    (e :: l).find? (fun q => decide ((maxFirst e l).2 ≤ q.2)) = some (maxFirst e l)
  | [], e => by simp [maxFirst, List.find?]
  | p :: r, e => by
    by_cases hpe : p.2 > e.2
    · rw [maxFirst, if_pos hpe]
      have hpm : p.2 ≤ (maxFirst p r).2 := maxFirst_le r p p (List.mem_cons_self _ _)
      have hem : ¬ ((maxFirst p r).2 ≤ e.2) := by omega
      have IH := maxFirst_find r p
      simp only [List.find?, decide_eq_false hem]
      exact IH
    · rw [maxFirst, if_neg hpe]
      have IH := maxFirst_find r e
      by_cases hem : (maxFirst e r).2 ≤ e.2
      · have h1 : maxFirst e r = e := by
          have := IH
          simp only [List.find?, decide_eq_true hem] at this
          exact (Option.some.inj this).symm
        rw [h1] at hem ⊢
        simp [List.find?, decide_eq_true hem]
      · have hpm : ¬ ((maxFirst e r).2 ≤ p.2) := by omega
        have h1 : r.find? (fun q => decide ((maxFirst e r).2 ≤ q.2)) = some (maxFirst e r) := by
          have := IH
          simp only [List.find?, decide_eq_false hem] at this
          exact this
        simp [List.find?, decide_eq_false hem, decide_eq_false hpm, h1]

lemma maxFirst_map {α β : Type} (f : α → β) : ∀ (l : List (α × Int)) (e : α × Int),
    maxFirst (f e.1, e.2) (l.map (fun p => (f p.1, p.2))) =
      (f (maxFirst e l).1, (maxFirst e l).2)
  | [], e => by simp [maxFirst]
  | p :: r, e => by
    simp only [List.map_cons, maxFirst]
    by_cases hc : p.2 > e.2
    · rw [if_pos hc, if_pos hc]
      exact maxFirst_map f r p
    · rw [if_neg hc, if_neg hc]
      exact maxFirst_map f r e

@[simp] lemma cntPair_fst (gs : List String) (k : String) : (cntPair gs k).1 = k := rfl

@[simp] lemma cntPair_snd (gs : List String) (k : String) :
    (cntPair gs k).2 = (gs.count k : Int) := rfl

lemma tallyS_eq_cnt (gs : List String) :
    tallyS gs = (dedupF [] gs).map (cntPair gs) := tallyS_eq gs

/-- On a non-empty genre list, Python's `max(genre_counts,
key=genre_counts.get)` over the tally built by the loop returns exactly the
first genre (in traversal order) whose count is maximal. -/
lemma genre_master (gs : List String) (hne : gs ≠ []) :
    ∃ g : String, firstMaxGenre gs = some g ∧
      pyMaxByGet (encL (tallyS gs)) = .ok (.js g) := by
  have hklne : dedupF [] gs ≠ [] := by
    cases gs with
    | nil => exact absurd rfl hne
    | cons g0 gr =>
      intro h
      have hmem := (dedupF_mem [] (g0 :: gr) g0).mpr
        ⟨List.mem_cons_self _ _, List.not_mem_nil _⟩
      rw [h] at hmem
      exact List.not_mem_nil _ hmem
  obtain ⟨k0, kr, hk⟩ := List.exists_cons_of_ne_nil hklne
  have hmax0 := maxFirst_map JVal.js (kr.map (cntPair gs)) (cntPair gs k0)
  have hfm := maxFirst_find (kr.map (cntPair gs)) (cntPair gs k0)
  rw [← List.map_cons] at hfm
  rw [sw_find_map] at hfm
  obtain ⟨km, hkm, hFkm⟩ := Option.map_eq_some'.mp hfm
  have hm1 : (maxFirst (cntPair gs k0) (kr.map (cntPair gs))).1 = km := by
    rw [← hFkm]
    rfl
  have hm2 : (maxFirst (cntPair gs k0) (kr.map (cntPair gs))).2 = (gs.count km : Int) := by
    rw [← hFkm]
    rfl
  have hkm_mem : km ∈ gs := by
    have h1 : km ∈ k0 :: kr := List.mem_of_find?_eq_some hkm
    rw [← hk] at h1
    exact ((dedupF_mem [] gs km).mp h1).1
  have hall : ∀ x ∈ gs, (gs.count x : Int) ≤
      (maxFirst (cntPair gs k0) (kr.map (cntPair gs))).2 := by
    intro x hx
    have hxd : x ∈ dedupF [] gs := (dedupF_mem [] gs x).mpr ⟨hx, List.not_mem_nil x⟩
    rw [hk] at hxd
    have hmm : cntPair gs x ∈ cntPair gs k0 :: kr.map (cntPair gs) := by
      rw [← List.map_cons]
      exact List.mem_map_of_mem _ hxd
    have := maxFirst_le (kr.map (cntPair gs)) (cntPair gs k0) (cntPair gs x) hmm
    simpa using this
  have hfind_gs : gs.find?
      (fun a => decide ((maxFirst (cntPair gs k0) (kr.map (cntPair gs))).2
        ≤ (cntPair gs a).2)) = some km := by
    rw [← dedupF_find _ [] gs (by intro x hx; exact absurd hx (List.not_mem_nil x)), hk]
    exact hkm
  have hcong : gs.find? (fun g => gs.all (fun h => decide (gs.count h ≤ gs.count g)))
      = gs.find? (fun a => decide ((maxFirst (cntPair gs k0) (kr.map (cntPair gs))).2
        ≤ (cntPair gs a).2)) := by
    apply sw_find_congr
    intro x _
    by_cases hge : (maxFirst (cntPair gs k0) (kr.map (cntPair gs))).2 ≤ (cntPair gs x).2
    · have h2 : gs.all (fun h => decide (gs.count h ≤ gs.count x)) = true := by
        rw [List.all_eq_true]
        intro y hy
        have hy1 := hall y hy
        have hy2 : (gs.count y : Int) ≤ (gs.count x : Int) := by
          rw [cntPair_snd] at hge
          omega
        have : gs.count y ≤ gs.count x := by exact_mod_cast hy2
        exact decide_eq_true this
      rw [h2, decide_eq_true hge]
    · have h2 : ¬ (gs.all (fun h => decide (gs.count h ≤ gs.count x)) = true) := by
        rw [List.all_eq_true]
        intro hAll
        apply hge
        have := hAll km hkm_mem
        rw [decide_eq_true_eq] at this
        rw [hm2, cntPair_snd]
        exact_mod_cast this
      rw [decide_eq_false hge, Bool.eq_false_iff.mpr h2]
  refine ⟨km, ?_, ?_⟩
  · rw [firstMaxGenre, hcong, hfind_gs]
  · rw [tallyS_eq_cnt, hk]
    show pyMaxByGet (((k0 :: kr).map (cntPair gs)).map encPair) = _
    rw [List.map_cons, List.map_cons]
    have henc : ∀ c : List (String × Int), c.map encPair =
        c.map (fun p => (JVal.js p.1, p.2)) := by
      intro c
      rfl
    rw [pyMaxByGet]
    simp only [encPair]
    rw [henc, hmax0, hm1]

/-! ## Lemmas: the loops on well-typed payloads -/

lemma gcBump_enc (c : List (String × Int)) (g : String) :
    gcBump (encL c) (.js g) = encL (bumpS c g) := by
  rw [gcBump, bumpS, encL, encL]
  have hany : ((c.map encPair).any fun p => pyKeyEq p.1 (JVal.js g))
      = (c.any fun p => decide (p.1 = g)) := by
    induction c with
    | nil => rfl
    | cons p r ih =>
      rw [List.map_cons, List.any_cons, List.any_cons, ih]
      rfl
  rw [hany]
  by_cases hc : (c.any fun p => decide (p.1 = g)) = true
  · rw [if_pos hc, if_pos hc, List.map_map, List.map_map]
    refine List.map_congr_left (fun p _ => ?_)
    by_cases hp : p.1 = g
    · simp [encPair, pyKeyEq, hp]
    · simp [encPair, pyKeyEq, hp]
  · rw [if_neg hc, if_neg hc, List.map_append]
    rfl

lemma foldl_gcBump_enc (gs : List String) : ∀ c : List (String × Int),
    gs.foldl (fun acc g => gcBump acc (JVal.js g)) (encL c) = encL (gs.foldl bumpS c) := by
  induction gs with
  | nil => intro c; rfl
  | cons g r ih =>
    intro c
    rw [List.foldl_cons, List.foldl_cons, gcBump_enc]
    exact ih _

lemma genre_loop_enc (gs : List String) : ∀ gc : List (JVal × Int),
    genre_loop (gs.map JVal.js) gc =
      .ok (gs.foldl (fun acc g => gcBump acc (JVal.js g)) gc) := by
  induction gs with
  | nil => intro gc; rfl
  | cons g r ih =>
    intro gc
    rw [List.map_cons, List.foldl_cons, genre_loop,
      if_pos (show pyHashable (JVal.js g) = true from rfl)]
    exact ih _

set_option maxHeartbeats 1000000 in
lemma artist_loop_enc :  ∀ (as : List Artist) (pop : Int) (imgs : List JVal)
    (gc : List (JVal × Int)),
    artist_loop (as.map Artist.toJ) pop imgs gc =
      .ok (pop + sumPop as,
           imgs ++ as.map (fun a => a.images.headD JVal.null),
           (allGenres as).foldl (fun acc g => gcBump acc (JVal.js g)) gc)
  | [], pop, imgs, gc => by simp [artist_loop, sumPop, allGenres]
  | a :: as, pop, imgs, gc => by
    cases himgs : a.images with
    | nil =>
      simp only [List.map_cons, artist_loop, Artist.toJ, himgs]
      simp [pySubscr, pyLookup, pyInt, pyLen, pyIndexZero, pyIter, bind, Except.bind,
        pure, Except.pure, genre_loop_enc]
      rw [artist_loop_enc as]
      simp [sumPop, allGenres, himgs, List.foldl_append, List.append_assoc, add_assoc]
    | cons i rest =>
      simp only [List.map_cons, artist_loop, Artist.toJ, himgs]
      simp [pySubscr, pyLookup, pyInt, pyLen, pyIndexZero, pyIter, bind, Except.bind,
        pure, Except.pure, genre_loop_enc]
      rw [artist_loop_enc as]
      simp [sumPop, allGenres, himgs, List.foldl_append, List.append_assoc, add_assoc]

set_option maxHeartbeats 1000000 in
lemma track_loop_enc : ∀ (ts : List Track) (pop dur expl : Int) (imgs : List JVal),
    track_loop (ts.map Track.toJ) pop dur expl imgs =
      .ok (pop + sumTPop ts, dur + sumDur ts, expl,
           imgs ++ ts.map (fun t => t.album_images.headD JVal.null))
  | [], pop, dur, expl, imgs => by simp [track_loop, sumTPop, sumDur]
  | t :: ts, pop, dur, expl, imgs => by
    cases himgs : t.album_images with
    | nil =>
      simp only [List.map_cons, track_loop, Track.toJ, himgs]
      simp [pySubscr, pyLookup, pyInt, pyLen, pyIndexZero, pyIter, pyEqLitStr,
        bind, Except.bind, pure, Except.pure]
      rw [track_loop_enc ts]
      simp [sumTPop, sumDur, himgs, List.append_assoc, add_assoc]
    | cons i rest =>
      simp only [List.map_cons, track_loop, Track.toJ, himgs]
      simp [pySubscr, pyLookup, pyInt, pyLen, pyIndexZero, pyIter, pyEqLitStr,
        bind, Except.bind, pure, Except.pure]
      rw [track_loop_enc ts]
      simp [sumTPop, sumDur, himgs, List.append_assoc, add_assoc]

lemma pySubscr_toJ_name (a : Artist) :
    pySubscr a.toJ "name" = .ok (.js a.name) := by
  simp [Artist.toJ, pySubscr, pyLookup]

lemma pySubscr_toJ_followers (a : Artist) :
    pySubscr a.toJ "followers" = .ok (.jo [("total", .ji a.followers)]) := by
  simp [Artist.toJ, pySubscr, pyLookup]

lemma pySubscr_total (v : JVal) :
    pySubscr (.jo [("total", v)]) "total" = .ok v := by
  simp [pySubscr, pyLookup]

lemma pySubscr_toJTrack_name (t : Track) :
    pySubscr t.toJ "name" = .ok (.js t.name) := by
  simp [Track.toJ, pySubscr, pyLookup]

set_option maxHeartbeats 1000000 in
lemma add_artists_ok (a : Artist) (as : List Artist) (g : String)
    (hg : firstMaxGenre (allGenres (a :: as)) = some g) :
    add_artists (JVal.ja ((a :: as).map Artist.toJ)) =
      .ok (["Your number one artist was " ++ a.name ++ "!",
            "That makes you one of " ++ toString a.followers ++ " fans!",
            "Your most played genre was " ++ g ++ "!",
            conclude_artist_popularity ((sumPop (a :: as) : ℚ) / ((a :: as).length : ℚ))],
           (a :: as).map (fun x => x.images.headD JVal.null)) := by
  have hne : allGenres (a :: as) ≠ [] := by
    intro h
    rw [h] at hg
    simp [firstMaxGenre] at hg
  obtain ⟨g', hg', hmax⟩ := genre_master (allGenres (a :: as)) hne
  rw [hg'] at hg
  obtain rfl : g' = g := Option.some.inj hg
  have hfold : List.foldl (fun acc x => gcBump acc (JVal.js x)) ([] : List (JVal × Int))
      (allGenres (a :: as)) = encL (tallyS (allGenres (a :: as))) :=
    foldl_gcBump_enc (allGenres (a :: as)) []
  simp only [add_artists, List.map_cons]
  simp [pyIndexZero, pySubscr_toJ_name, pySubscr_toJ_followers, pySubscr_total,
    pyStr, pyRepr, pyIter, bind, Except.bind, pure, Except.pure]
  rw [show (Artist.toJ a :: List.map Artist.toJ as) = List.map Artist.toJ (a :: as) from rfl,
    artist_loop_enc (a :: as)]
  simp only [bind, Except.bind]
  rw [hfold, hmax]
  simp [pyLen, bind, Except.bind, pure, Except.pure, List.length_cons, List.length_map]

set_option maxHeartbeats 1000000 in
lemma add_artists_err (a : Artist) (as : List Artist)
    (h : allGenres (a :: as) = []) :
    add_artists (JVal.ja ((a :: as).map Artist.toJ)) = .error .valueError := by
  simp only [add_artists, List.map_cons]
  simp [pyIndexZero, pySubscr_toJ_name, pySubscr_toJ_followers, pySubscr_total,
    pyStr, pyRepr, pyIter, bind, Except.bind, pure, Except.pure]
  rw [show (Artist.toJ a :: List.map Artist.toJ as) = List.map Artist.toJ (a :: as) from rfl,
    artist_loop_enc (a :: as)]
  simp only [bind, Except.bind]
  rw [h]
  simp [pyMaxByGet]

set_option maxHeartbeats 1000000 in
lemma add_tracks_ok (t : Track) (ts : List Track) :
    add_tracks (JVal.ja ((t :: ts).map Track.toJ)) =
      .ok (["Your number one song was " ++ t.name ++ "!",
            (if ((sumDur (t :: ts) : ℚ) / ((t :: ts).length : ℚ)) ≤ 60000 then
              "You tend to like shorter songs."
             else if ((sumDur (t :: ts) : ℚ) / ((t :: ts).length : ℚ)) ≤ 240000 then
              "You tend to like mid-length songs."
             else "You tend to like longer songs."),
            "None of your top 5 songs were explicit 😇",
            conclude_track_popularity ((sumTPop (t :: ts) : ℚ) / ((t :: ts).length : ℚ))],
           (t :: ts).map (fun x => x.album_images.headD JVal.null)) := by
  simp only [add_tracks, List.map_cons]
  simp [pyIndexZero, pySubscr_toJTrack_name, pyStr, pyIter,
    bind, Except.bind, pure, Except.pure]
  rw [show (Track.toJ t :: List.map Track.toJ ts) = List.map Track.toJ (t :: ts) from rfl,
    track_loop_enc (t :: ts)]
  simp [bind, Except.bind, pyLen, List.length_cons, List.length_map, pure, Except.pure]

lemma pySubscr_items_artists (as : List Artist) :
    pySubscr (artistsPayload as) "items" = .ok (.ja (as.map Artist.toJ)) := by
  simp [artistsPayload, pySubscr, pyLookup]

lemma pySubscr_items_tracks (ts : List Track) :
    pySubscr (tracksPayload ts) "items" = .ok (.ja (ts.map Track.toJ)) := by
  simp [tracksPayload, pySubscr, pyLookup]

set_option maxHeartbeats 1000000 in
lemma parse_typed_ok (a : Artist) (as : List Artist) (t : Track) (ts : List Track)
    (g : String) (hg : firstMaxGenre (allGenres (a :: as)) = some g) :
    SingleWrapped.parse (artistsPayload (a :: as)) (tracksPayload (t :: ts)) =
      .ok ⟨["Your number one artist was " ++ a.name ++ "!",
            "That makes you one of " ++ toString a.followers ++ " fans!",
            "Your most played genre was " ++ g ++ "!",
            conclude_artist_popularity ((sumPop (a :: as) : ℚ) / ((a :: as).length : ℚ)),
            "Your number one song was " ++ t.name ++ "!",
            (if ((sumDur (t :: ts) : ℚ) / ((t :: ts).length : ℚ)) ≤ 60000 then
              "You tend to like shorter songs."
             else if ((sumDur (t :: ts) : ℚ) / ((t :: ts).length : ℚ)) ≤ 240000 then
              "You tend to like mid-length songs."
             else "You tend to like longer songs."),
            "None of your top 5 songs were explicit 😇",
            conclude_track_popularity ((sumTPop (t :: ts) : ℚ) / ((t :: ts).length : ℚ))],
           (a :: as).map (fun x => x.images.headD JVal.null),
           (t :: ts).map (fun x => x.album_images.headD JVal.null)⟩ := by
  simp [SingleWrapped.parse, pySubscr_items_artists, pySubscr_items_tracks, pyLen,
    bind, Except.bind, pure, Except.pure, List.length_map, add_artists_ok a as g hg,
    add_tracks_ok t ts, -List.map_cons]

set_option maxHeartbeats 1000000 in
lemma parse_typed_nogenre (a : Artist) (as : List Artist) (tj : JVal)
    (h : allGenres (a :: as) = []) :
    SingleWrapped.parse (artistsPayload (a :: as)) tj = .error .valueError := by
  simp [SingleWrapped.parse, pySubscr_items_artists, pyLen,
    bind, Except.bind, pure, Except.pure, List.length_map, add_artists_err a as h,
    -List.map_cons]

/-! ## Lemmas: failure paths -/

lemma pySubscr_of_not_hasKey (v : JVal) (k : String) (h : hasKey v k = false) :
    ∃ e, pySubscr v k = .error e := by
  cases v with
  | jo fs =>
    rw [hasKey] at h
    rw [pySubscr]
    cases hl : pyLookup fs k with
    | none => exact ⟨.keyError, rfl⟩
    | some w => rw [hl] at h; simp at h
  | null => exact ⟨.typeError, rfl⟩
  | jb b => exact ⟨.typeError, rfl⟩
  | ji n => exact ⟨.typeError, rfl⟩
  | js s => exact ⟨.typeError, rfl⟩
  | ja xs => exact ⟨.typeError, rfl⟩

lemma parse_err_of_artist_shape (aj tj : JVal) (h : hasKey aj "items" = false) :
    ∃ e, SingleWrapped.parse aj tj = .error e := by
  obtain ⟨e, he⟩ := pySubscr_of_not_hasKey aj "items" h
  exact ⟨e, by simp [SingleWrapped.parse, he, bind, Except.bind]⟩

set_option maxHeartbeats 1000000 in
lemma parse_err_of_track_shape (a : Artist) (as : List Artist) (g : String) (tj : JVal)
    (hg : firstMaxGenre (allGenres (a :: as)) = some g)
    (h : hasKey tj "items" = false) :
    ∃ e, SingleWrapped.parse (artistsPayload (a :: as)) tj = .error e := by
  obtain ⟨e, he⟩ := pySubscr_of_not_hasKey tj "items" h
  refine ⟨e, ?_⟩
  simp [SingleWrapped.parse, pySubscr_items_artists, pyLen, bind, Except.bind,
    pure, Except.pure, List.length_map, add_artists_ok a as g hg, he, -List.map_cons]

/-! ## The claims -/

/-- Claim C1, counterexample: as stated the claim is false. For a non-empty
artist list in which no artist carries a genre, `SingleWrapped.parse` raises
`ValueError` from `max` over the empty genre tally (line 197) instead of
producing 8 slides. -/
theorem C1_counterexample :
    SingleWrapped.parse
      (artistsPayload [⟨"Artist A", 10, 50, [], []⟩])
      (tracksPayload [⟨"Song A", 50, 200000, false, []⟩]) = .error .valueError :=
  parse_typed_nogenre ⟨"Artist A", 10, 50, [], []⟩ [] _ rfl

/-- Claim C1, amended: for every non-empty artist list carrying at least one
genre label and every non-empty track list, `SingleWrapped.parse` succeeds
and produces exactly 8 slides. -/
theorem C1_eight_slides (a : Artist) (as : List Artist) (t : Track) (ts : List Track)
    (hg : allGenres (a :: as) ≠ []) :
    ∃ w : PWrapped,
      SingleWrapped.parse (artistsPayload (a :: as)) (tracksPayload (t :: ts)) = .ok w ∧
      w.slides.length = 8 := by
  obtain ⟨g, hg', _⟩ := genre_master (allGenres (a :: as)) hg
  exact ⟨_, parse_typed_ok a as t ts g hg', rfl⟩

/-- Claim C1, witness: the amended theorem applied to the spec's section 8
scenario input. -/
theorem C1_eight_slides_witness :
    allGenres [(⟨"Artik & Asti", 1076226, 42, ["russian pop"], []⟩ : Artist)] ≠ [] ∧
    ∃ w : PWrapped,
      SingleWrapped.parse
        (artistsPayload [⟨"Artik & Asti", 1076226, 42, ["russian pop"], []⟩])
        (tracksPayload [⟨"Walk It Talk It", 50, 200000, false, []⟩]) = .ok w ∧
      w.slides.length = 8 :=
  ⟨by simp [allGenres], C1_eight_slides _ [] _ [] (by simp [allGenres])⟩

/-- Claim C2: the claim matches the code's own dead branch (lines 198–200)
and the spec, but the code crashes first: on a non-empty artist list with no
genre labels, `max(genre_counts, key=genre_counts.get)` at line 197 raises
`ValueError: max() arg is an empty sequence`, so the niche-genre slide is
never emitted. This theorem evaluates the parse at such an input. -/
theorem C2_genre_crash :
    SingleWrapped.parse
      (artistsPayload [⟨"No Genre Artist", 3, 50, [], []⟩])
      (tracksPayload [⟨"Some Song", 40, 180000, false, []⟩]) = .error .valueError :=
  parse_typed_nogenre ⟨"No Genre Artist", 3, 50, [], []⟩ [] _ rfl

/-- Claim C3: the code compares `track["explicit"] == "true"` (line 230)
against the string literal, but the payload's explicit flag is a JSON
boolean, so the comparison is always false: with two explicit tracks the
emitted slide is still the zero-count one, where the claim demands
"2 of your top 5 songs were explicit.". -/
theorem C3_explicit_flag_ignored :
    ∃ w : PWrapped,
      SingleWrapped.parse
        (artistsPayload [⟨"Some Artist", 7, 50, ["pop"], []⟩])
        (tracksPayload [⟨"Explicit Song", 40, 180000, true, []⟩,
          ⟨"Another Explicit Song", 40, 180000, true, []⟩]) = .ok w ∧
      w.slides.get? 6 = some "None of your top 5 songs were explicit 😇" :=
  ⟨_, parse_typed_ok ⟨"Some Artist", 7, 50, ["pop"], []⟩ []
    ⟨"Explicit Song", 40, 180000, true, []⟩ [⟨"Another Explicit Song", 40, 180000, true, []⟩]
    "pop" (by decide), rfl⟩

/-- Claim C4: for every artist payload whose item list is empty, the parse
returns exactly the single degenerate slide with empty image lists, for
every track payload whatsoever — the result does not depend on the track
payload, which is never decoded (lines 109–113 return before line 115). -/
theorem C4_empty_artist_items (aj itemsv : JVal)
    (h1 : pySubscr aj "items" = .ok itemsv) (h2 : pyLen itemsv = .ok 0) :
    ∀ tj : JVal, SingleWrapped.parse aj tj =
      .ok ⟨["You didn't listen to any music recently."], [], []⟩ := by
  intro tj
  simp [SingleWrapped.parse, h1, h2, bind, Except.bind, pure, Except.pure]

/-- Claim C4, witness: the theorem applied to the empty items payload, with
a malformed (non-object) track payload among the instances. -/
theorem C4_empty_artist_items_witness :
    pySubscr (.jo [("items", .ja [])]) "items" = .ok (.ja []) ∧
    pyLen (.ja []) = .ok 0 ∧
    SingleWrapped.parse (.jo [("items", .ja [])]) (.js "not even an object") =
      .ok ⟨["You didn't listen to any music recently."], [], []⟩ :=
  ⟨by simp [pySubscr, pyLookup], rfl,
   C4_empty_artist_items (.jo [("items", .ja [])]) (.ja [])
     (by simp [pySubscr, pyLookup]) rfl (.js "not even an object")⟩

/-- Claim C10: the genre slide names exactly `firstMaxGenre` of the genre
labels in traversal order (artists in input order, each artist's genre list
in order): the first label whose tally count is maximal, so on ties the
first-seen label wins — Python's `max` keeps the earliest key of the
insertion-ordered dict among tied counts. -/
theorem C10_tie_break_first_seen (a : Artist) (as : List Artist) (t : Track)
    (ts : List Track) (g : String)
    (hg : firstMaxGenre (allGenres (a :: as)) = some g) :
    ∃ w : PWrapped,
      SingleWrapped.parse (artistsPayload (a :: as)) (tracksPayload (t :: ts)) = .ok w ∧
      w.slides.get? 2 = some ("Your most played genre was " ++ g ++ "!") :=
  ⟨_, parse_typed_ok a as t ts g hg, rfl⟩

/-- Claim C10, witness: a genuine tie — "pop" and "rock" both tally 2, and
"pop", which appears first in traversal order, is the slide's genre. -/
theorem C10_tie_break_first_seen_witness :
    firstMaxGenre (allGenres
      [(⟨"First Artist", 1, 50, ["pop", "rock"], []⟩ : Artist),
       ⟨"Second Artist", 2, 60, ["rock", "pop"], []⟩]) = some "pop" ∧
    ∃ w : PWrapped,
      SingleWrapped.parse
        (artistsPayload [⟨"First Artist", 1, 50, ["pop", "rock"], []⟩,
          ⟨"Second Artist", 2, 60, ["rock", "pop"], []⟩])
        (tracksPayload [⟨"Song", 50, 100000, false, []⟩]) = .ok w ∧
      w.slides.get? 2 = some ("Your most played genre was " ++ "pop" ++ "!") :=
  ⟨by decide,
   C10_tie_break_first_seen ⟨"First Artist", 1, 50, ["pop", "rock"], []⟩
     [⟨"Second Artist", 2, 60, ["rock", "pop"], []⟩]
     ⟨"Song", 50, 100000, false, []⟩ [] "pop" (by decide)⟩

/-- Claim C5, counterexample: a payload in which a required field is absent
need not fail — the parser only reads `name` and `followers` of the first
item, so a second artist object with no `name` member parses fine and
`create` persists a record (no error is returned). -/
theorem C5_counterexample :
    pySubscr (.jo [("popularity", .ji 10), ("genres", .ja []), ("images", .ja [])]) "name"
      = .error .keyError ∧
    (SingleWrapped.create []
      (.jo [("items", .ja
        [Artist.toJ ⟨"Good Artist", 1, 50, ["pop"], []⟩,
         .jo [("popularity", .ji 10), ("genres", .ja []), ("images", .ja [])]])])
      (tracksPayload [⟨"Song", 40, 180000, false, []⟩])).2 = none := by
  constructor
  · simp [pySubscr, pyLookup]
  · simp [SingleWrapped.create, SingleWrapped.parse, add_artists, add_tracks, artist_loop,
      track_loop, genre_loop, gcBump, pyKeyEq, pyHashable, pyMaxByGet, maxFirst,
      pySubscr, pyLookup, pyLen, pyIndexZero, pyInt, pyIter, pyStr, pyRepr, pyEqLitStr,
      Artist.toJ, Track.toJ, tracksPayload, bind, Except.bind, pure, Except.pure]

/-- Claim C5, amended: a payload whose top level is not an object with an
`items` member always makes `SingleWrapped.create` fail (returning an
error), and on any failure the persisted store is unchanged; the track
payload is checked this way once the artist stage succeeded. (Absent or
wrong-typed fields the parser never reads do not fail — see the
counterexample.) -/
theorem C5_amended_create_failure :
    (∀ (db : List PWrapped) (aj tj : JVal), hasKey aj "items" = false →
      ((SingleWrapped.create db aj tj).2.isSome = true ∧
       (SingleWrapped.create db aj tj).1 = db)) ∧
    (∀ (db : List PWrapped) (aj tj : JVal),
      (SingleWrapped.create db aj tj).2.isSome = true →
      (SingleWrapped.create db aj tj).1 = db) ∧
    (∀ (db : List PWrapped) (a : Artist) (as : List Artist) (g : String) (tj : JVal),
      firstMaxGenre (allGenres (a :: as)) = some g → hasKey tj "items" = false →
      ((SingleWrapped.create db (artistsPayload (a :: as)) tj).2.isSome = true ∧
       (SingleWrapped.create db (artistsPayload (a :: as)) tj).1 = db)) := by
  refine ⟨?_, ?_, ?_⟩
  · intro db aj tj h
    obtain ⟨e, he⟩ := parse_err_of_artist_shape aj tj h
    simp [SingleWrapped.create, he]
  · intro db aj tj h
    cases hp : SingleWrapped.parse aj tj with
    | error e => simp [SingleWrapped.create, hp]
    | ok w => simp [SingleWrapped.create, hp] at h
  · intro db a as g tj hg h
    obtain ⟨e, he⟩ := parse_err_of_track_shape a as g tj hg h
    simp [SingleWrapped.create, he]

/-- Claim C5, witness: the amended theorem applied to a top-level list (not
an object): create fails and the store is unchanged. -/
theorem C5_amended_create_failure_witness :
    (SingleWrapped.create [] (.ja []) (.jo [])).2.isSome = true ∧
    (SingleWrapped.create [] (.ja []) (.jo [])).1 = [] :=
  C5_amended_create_failure.1 [] (.ja []) (.jo []) rfl

/-- Claim C6: whenever the single upstream exchange errors, times out,
returns a non-JSON body, or returns a body lacking `access_token` or
`expires_in`, `Account.refresh` fails — the exception (the spec's
`AuthRefreshError`; the code propagates the underlying exception unwrapped)
surfaces to the caller, and no retry exists: the one outcome argument
decides the result. -/
theorem C6_refresh_failure (acct : Account) (now : Int) (o : UpstreamOutcome)
    (h : o = .requestFailure ∨ o = .timeout ∨ o = .badBody ∨
      ∃ body : JVal, o = .response body ∧
        (hasKey body "access_token" = false ∨ hasKey body "expires_in" = false)) :
    (Account.refresh acct now o).2.isSome = true := by
  rcases h with rfl | rfl | rfl | ⟨body, rfl, hb | hb⟩
  · rfl
  · rfl
  · rfl
  · obtain ⟨e, he⟩ := pySubscr_of_not_hasKey body "access_token" hb
    simp [Account.refresh, he]
  · cases h1 : pySubscr body "access_token" with
    | error e => simp [Account.refresh, h1]
    | ok tok =>
      obtain ⟨e, he⟩ := pySubscr_of_not_hasKey body "expires_in" hb
      simp [Account.refresh, h1, he]

/-- Claim C6, witness: the theorem applied to a timeout and to a response
body missing `expires_in`. -/
theorem C6_refresh_failure_witness :
    (Account.refresh ⟨none, none, none⟩ 0 .timeout).2.isSome = true ∧
    (Account.refresh ⟨none, none, none⟩ 5
      (.response (.jo [("access_token", .js "tok")]))).2.isSome = true :=
  ⟨C6_refresh_failure ⟨none, none, none⟩ 0 .timeout (Or.inr (Or.inl rfl)),
   C6_refresh_failure ⟨none, none, none⟩ 5 (.response (.jo [("access_token", .js "tok")]))
     (Or.inr (Or.inr (Or.inr ⟨.jo [("access_token", .js "tok")], rfl, Or.inr (by decide)⟩)))⟩

/-- Claim C9: `Account.access_expired` is true exactly when the current time
is strictly after the stored expiration instant; after a successful refresh
whose response carries a positive `expires_in`, it is false at the refresh
instant and true at any instant past the new expiration. -/
theorem C9_access_expired :
    (∀ (acct : Account) (e now : Int), acct.access_token_expiration_time = some e →
      (Account.access_expired acct now = .ok true ↔ now > e)) ∧
    (∀ (acct : Account) (now : Int) (body tok : JVal) (secs : Int),
      pySubscr body "access_token" = .ok tok →
      pySubscr body "expires_in" = .ok (.ji secs) → 0 < secs →
      ((Account.refresh acct now (.response body)).2 = none ∧
       Account.access_expired (Account.refresh acct now (.response body)).1 now
         = .ok false)) ∧
    (∀ (acct : Account) (now : Int) (body tok : JVal) (secs now' : Int),
      pySubscr body "access_token" = .ok tok →
      pySubscr body "expires_in" = .ok (.ji secs) →
      now' > now + secs →
      Account.access_expired (Account.refresh acct now (.response body)).1 now'
        = .ok true) := by
  refine ⟨?_, ?_, ?_⟩
  · intro acct e now h
    simp [Account.access_expired, h]
  · intro acct now body tok secs h1 h2 hpos
    constructor
    · simp [Account.refresh, h1, h2, timedelta_seconds]
    · simp [Account.refresh, h1, h2, timedelta_seconds, Account.access_expired]
      omega
  · intro acct now body tok secs now' h1 h2 hgt
    simp [Account.refresh, h1, h2, timedelta_seconds, Account.access_expired]
    omega

/-- Claim C9, witness: the three conjuncts at concrete instants — stored
expiration 5 with now 7; a refresh at instant 100 with a 60-second
lifetime, checked at 100 (not expired) and at 200 (expired). -/
theorem C9_access_expired_witness :
    (Account.access_expired ⟨none, some 5, none⟩ 7 = .ok true ↔ (7 : Int) > 5) ∧
    ((Account.refresh ⟨none, none, none⟩ 100
        (.response (.jo [("access_token", .js "tok"), ("expires_in", .ji 60)]))).2 = none ∧
      Account.access_expired (Account.refresh ⟨none, none, none⟩ 100
        (.response (.jo [("access_token", .js "tok"), ("expires_in", .ji 60)]))).1 100
        = .ok false) ∧
    Account.access_expired (Account.refresh ⟨none, none, none⟩ 100
      (.response (.jo [("access_token", .js "tok"), ("expires_in", .ji 60)]))).1 200
      = .ok true :=
  ⟨C9_access_expired.1 ⟨none, some 5, none⟩ 5 7 rfl,
   C9_access_expired.2.1 ⟨none, none, none⟩ 100
     (.jo [("access_token", .js "tok"), ("expires_in", .ji 60)]) (.js "tok") 60
     (by simp [pySubscr, pyLookup]) (by simp [pySubscr, pyLookup]) (by norm_num),
   C9_access_expired.2.2 ⟨none, none, none⟩ 100
     (.jo [("access_token", .js "tok"), ("expires_in", .ji 60)]) (.js "tok") 60 200
     (by simp [pySubscr, pyLookup]) (by simp [pySubscr, pyLookup]) (by norm_num)⟩

/-- Claim C7, counterexample: as stated the claim quantifies over every
non-empty artist list with average popularity exactly 80 — but when no
artist carries a genre (and the track list's average duration is exactly
60000 ms), the parse raises `ValueError` at the genre `max` before any
popularity or duration slide exists, so neither bucketed slide is
produced. -/
theorem C7_counterexample :
    SingleWrapped.parse
      (artistsPayload [⟨"Boundary Artist", 2, 80, [], []⟩])
      (tracksPayload [⟨"Boundary Song", 50, 60000, false, []⟩]) = .error .valueError :=
  parse_typed_nogenre ⟨"Boundary Artist", 2, 80, [], []⟩ [] _ rfl

/-- Claim C7, amended: provided at least one artist carries a genre label
(so the synthesis completes), every threshold is inclusive: average
duration exactly 60000 ms selects the shorter-songs bucket and exactly
240000 ms the mid-length bucket; average artist popularity exactly 80, 60,
40, 20 each select that bucket, not the next lower one. -/
theorem C7_inclusive_boundaries :
    (∀ (a : Artist) (as : List Artist) (t : Track) (ts : List Track) (g : String),
      firstMaxGenre (allGenres (a :: as)) = some g →
      (sumDur (t :: ts) : ℚ) / ((t :: ts).length : ℚ) = 60000 →
      ∃ w : PWrapped,
        SingleWrapped.parse (artistsPayload (a :: as)) (tracksPayload (t :: ts)) = .ok w ∧
        w.slides.get? 5 = some "You tend to like shorter songs.") ∧
    (∀ (a : Artist) (as : List Artist) (t : Track) (ts : List Track) (g : String),
      firstMaxGenre (allGenres (a :: as)) = some g →
      (sumDur (t :: ts) : ℚ) / ((t :: ts).length : ℚ) = 240000 →
      ∃ w : PWrapped,
        SingleWrapped.parse (artistsPayload (a :: as)) (tracksPayload (t :: ts)) = .ok w ∧
        w.slides.get? 5 = some "You tend to like mid-length songs.") ∧
    (∀ (a : Artist) (as : List Artist) (t : Track) (ts : List Track) (g : String),
      firstMaxGenre (allGenres (a :: as)) = some g →
      (sumPop (a :: as) : ℚ) / ((a :: as).length : ℚ) = 80 →
      ∃ w : PWrapped,
        SingleWrapped.parse (artistsPayload (a :: as)) (tracksPayload (t :: ts)) = .ok w ∧
        w.slides.get? 3 = some "Everyone's on the same page about your favorite artists!") ∧
    (∀ (a : Artist) (as : List Artist) (t : Track) (ts : List Track) (g : String),
      firstMaxGenre (allGenres (a :: as)) = some g →
      (sumPop (a :: as) : ℚ) / ((a :: as).length : ℚ) = 60 →
      ∃ w : PWrapped,
        SingleWrapped.parse (artistsPayload (a :: as)) (tracksPayload (t :: ts)) = .ok w ∧
        w.slides.get? 3 = some "Your favorite artists are interesting, but not controversial.") ∧
    (∀ (a : Artist) (as : List Artist) (t : Track) (ts : List Track) (g : String),
      firstMaxGenre (allGenres (a :: as)) = some g →
      (sumPop (a :: as) : ℚ) / ((a :: as).length : ℚ) = 40 →
      ∃ w : PWrapped,
        SingleWrapped.parse (artistsPayload (a :: as)) (tracksPayload (t :: ts)) = .ok w ∧
        w.slides.get? 3 = some "You have a niche taste in artists!") ∧
    (∀ (a : Artist) (as : List Artist) (t : Track) (ts : List Track) (g : String),
      firstMaxGenre (allGenres (a :: as)) = some g →
      (sumPop (a :: as) : ℚ) / ((a :: as).length : ℚ) = 20 →
      ∃ w : PWrapped,
        SingleWrapped.parse (artistsPayload (a :: as)) (tracksPayload (t :: ts)) = .ok w ∧
        w.slides.get? 3 = some "You tend to enjoy the smaller creators!") := by
  refine ⟨?_, ?_, ?_, ?_, ?_, ?_⟩
  · intro a as t ts g hg havg
    refine ⟨_, parse_typed_ok a as t ts g hg, ?_⟩
    simp only [List.get?]
    rw [havg]
    norm_num
  · intro a as t ts g hg havg
    refine ⟨_, parse_typed_ok a as t ts g hg, ?_⟩
    simp only [List.get?]
    rw [havg]
    norm_num
  · intro a as t ts g hg havg
    refine ⟨_, parse_typed_ok a as t ts g hg, ?_⟩
    simp only [List.get?]
    rw [havg]
    norm_num [conclude_artist_popularity]
  · intro a as t ts g hg havg
    refine ⟨_, parse_typed_ok a as t ts g hg, ?_⟩
    simp only [List.get?]
    rw [havg]
    norm_num [conclude_artist_popularity]
  · intro a as t ts g hg havg
    refine ⟨_, parse_typed_ok a as t ts g hg, ?_⟩
    simp only [List.get?]
    rw [havg]
    norm_num [conclude_artist_popularity]
  · intro a as t ts g hg havg
    refine ⟨_, parse_typed_ok a as t ts g hg, ?_⟩
    simp only [List.get?]
    rw [havg]
    norm_num [conclude_artist_popularity]

/-- Claim C7, witness: the six boundary conjuncts at concrete single-item
inputs — average duration exactly 60000 and 240000, average popularity
exactly 80, 60, 40 and 20. -/
theorem C7_inclusive_boundaries_witness :
    (∃ w : PWrapped,
      SingleWrapped.parse (artistsPayload [⟨"Artist", 1, 50, ["pop"], []⟩])
        (tracksPayload [⟨"Song", 50, 60000, false, []⟩]) = .ok w ∧
      w.slides.get? 5 = some "You tend to like shorter songs.") ∧
    (∃ w : PWrapped,
      SingleWrapped.parse (artistsPayload [⟨"Artist", 1, 50, ["pop"], []⟩])
        (tracksPayload [⟨"Song", 50, 240000, false, []⟩]) = .ok w ∧
      w.slides.get? 5 = some "You tend to like mid-length songs.") ∧
    (∃ w : PWrapped,
      SingleWrapped.parse (artistsPayload [⟨"Artist", 1, 80, ["pop"], []⟩])
        (tracksPayload [⟨"Song", 50, 100000, false, []⟩]) = .ok w ∧
      w.slides.get? 3 = some "Everyone's on the same page about your favorite artists!") ∧
    (∃ w : PWrapped,
      SingleWrapped.parse (artistsPayload [⟨"Artist", 1, 60, ["pop"], []⟩])
        (tracksPayload [⟨"Song", 50, 100000, false, []⟩]) = .ok w ∧
      w.slides.get? 3 = some "Your favorite artists are interesting, but not controversial.") ∧
    (∃ w : PWrapped,
      SingleWrapped.parse (artistsPayload [⟨"Artist", 1, 40, ["pop"], []⟩])
        (tracksPayload [⟨"Song", 50, 100000, false, []⟩]) = .ok w ∧
      w.slides.get? 3 = some "You have a niche taste in artists!") ∧
    (∃ w : PWrapped,
      SingleWrapped.parse (artistsPayload [⟨"Artist", 1, 20, ["pop"], []⟩])
        (tracksPayload [⟨"Song", 50, 100000, false, []⟩]) = .ok w ∧
      w.slides.get? 3 = some "You tend to enjoy the smaller creators!") :=
  ⟨C7_inclusive_boundaries.1 ⟨"Artist", 1, 50, ["pop"], []⟩ []
     ⟨"Song", 50, 60000, false, []⟩ [] "pop" (by decide) (by norm_num [sumDur]),
   C7_inclusive_boundaries.2.1 ⟨"Artist", 1, 50, ["pop"], []⟩ []
     ⟨"Song", 50, 240000, false, []⟩ [] "pop" (by decide) (by norm_num [sumDur]),
   C7_inclusive_boundaries.2.2.1 ⟨"Artist", 1, 80, ["pop"], []⟩ []
     ⟨"Song", 50, 100000, false, []⟩ [] "pop" (by decide) (by norm_num [sumPop]),
   C7_inclusive_boundaries.2.2.2.1 ⟨"Artist", 1, 60, ["pop"], []⟩ []
     ⟨"Song", 50, 100000, false, []⟩ [] "pop" (by decide) (by norm_num [sumPop]),
   C7_inclusive_boundaries.2.2.2.2.1 ⟨"Artist", 1, 40, ["pop"], []⟩ []
     ⟨"Song", 50, 100000, false, []⟩ [] "pop" (by decide) (by norm_num [sumPop]),
   C7_inclusive_boundaries.2.2.2.2.2 ⟨"Artist", 1, 20, ["pop"], []⟩ []
     ⟨"Song", 50, 100000, false, []⟩ [] "pop" (by decide) (by norm_num [sumPop])⟩

/-- Claim C8, counterexample: as stated the claim fails — with a non-empty
artist list (carrying an image) whose artists have no genre labels, the
parse raises `ValueError` before returning, so no artist-image or
track-image sequence is produced at all. -/
theorem C8_counterexample :
    SingleWrapped.parse
      (artistsPayload [⟨"Imaged Artist", 8, 70, [],
        [.jo [("url", .js "img.jpg"), ("width", .ji 640), ("height", .ji 640)]]⟩])
      (tracksPayload [⟨"Imaged Song", 10, 90000, false, [.js "cover.jpg"]⟩])
      = .error .valueError :=
  parse_typed_nogenre ⟨"Imaged Artist", 8, 70, [],
    [.jo [("url", .js "img.jpg"), ("width", .ji 640), ("height", .ji 640)]]⟩ [] _ rfl

/-- Claim C8, amended: provided at least one artist carries a genre label
(so the synthesis completes), the artist-image sequence has exactly one
entry per input artist and the track-image sequence one per input track, in
input order; entry i is the first element of item i's image list when that
list is non-empty and the explicit absence marker `null` otherwise. -/
theorem C8_image_sequences (a : Artist) (as : List Artist) (t : Track) (ts : List Track)
    (hg : allGenres (a :: as) ≠ []) :
    ∃ w : PWrapped,
      SingleWrapped.parse (artistsPayload (a :: as)) (tracksPayload (t :: ts)) = .ok w ∧
      w.artist_images = (a :: as).map (fun x => x.images.headD JVal.null) ∧
      w.track_images = (t :: ts).map (fun x => x.album_images.headD JVal.null) ∧
      w.artist_images.length = (a :: as).length ∧
      w.track_images.length = (t :: ts).length := by
  obtain ⟨g, hg', _⟩ := genre_master (allGenres (a :: as)) hg
  refine ⟨_, parse_typed_ok a as t ts g hg', rfl, rfl, ?_, ?_⟩
  · simp
  · simp

/-- Claim C8, witness: the amended theorem at an input mixing items with and
without images. -/
theorem C8_image_sequences_witness :
    allGenres [(⟨"Imaged Artist", 3, 40, ["indie"],
      [.jo [("url", .js "big.jpg")], .js "small.jpg"]⟩ : Artist),
      ⟨"Plain Artist", 4, 30, [], []⟩] ≠ [] ∧
    ∃ w : PWrapped,
      SingleWrapped.parse
        (artistsPayload [⟨"Imaged Artist", 3, 40, ["indie"],
          [.jo [("url", .js "big.jpg")], .js "small.jpg"]⟩,
          ⟨"Plain Artist", 4, 30, [], []⟩])
        (tracksPayload [⟨"Plain Song", 10, 90000, false, []⟩,
          ⟨"Imaged Song", 20, 90000, false, [.js "cover.jpg"]⟩]) = .ok w ∧
      w.artist_images = [⟨"Imaged Artist", 3, 40, ["indie"],
          [.jo [("url", .js "big.jpg")], .js "small.jpg"]⟩,
          (⟨"Plain Artist", 4, 30, [], []⟩ : Artist)].map
        (fun x => x.images.headD JVal.null) ∧
      w.track_images = [⟨"Plain Song", 10, 90000, false, []⟩,
          (⟨"Imaged Song", 20, 90000, false, [.js "cover.jpg"]⟩ : Track)].map
        (fun x => x.album_images.headD JVal.null) ∧
      w.artist_images.length = 2 ∧
      w.track_images.length = 2 :=
  ⟨by simp [allGenres],
   C8_image_sequences ⟨"Imaged Artist", 3, 40, ["indie"],
       [.jo [("url", .js "big.jpg")], .js "small.jpg"]⟩
     [⟨"Plain Artist", 4, 30, [], []⟩]
     ⟨"Plain Song", 10, 90000, false, []⟩
     [⟨"Imaged Song", 20, 90000, false, [.js "cover.jpg"]⟩]
     (by simp [allGenres])⟩
